import Mathlib

/-!
Verification of the Context-Based-Personal-Knowledge-Search backend
(`backend/app`): a shallow embedding in Lean 4 of the ingestion pipeline
(loader, chunker, embedder, vector store) and the RAG query pipeline
(retrieval formatting, prompt building, LLM error dispatch), with theorems
settling the specification's claims about them.

Conventions of the embedding:
* Python exceptions are values of `PyError`; functions that can raise
  return `Except PyError _`.
* External effects (file extraction, the sentence-transformers model, the
  Chroma client/collection, the HTTP request to Ollama) are modelled by
  explicit environment records and a `StoreState` that is threaded through
  the store operations; invocations of external dependencies are recorded
  in `StoreState.log`.
* Python `float` scores carry no arithmetic in the verified code paths and
  are modelled by `Rat`.
* Paths are posix strings; `load_file` receives the already-resolved path
  (in the source, `path.resolve()` has been applied, so the path is
  absolute and in particular non-empty).
-/

namespace PKO

/-! ## Python-level error model (backend/app/errors.py plus builtins) -/

/-- Exceptions raised by the backend code. The first six mirror the
`BackendError` subclasses of `errors.py`; `valueError` and `other` stand
for Python builtins raised outside that hierarchy. -/
inductive PyError where
  | ollamaUnavailable (msg : String)
  | ollamaModelMissing (msg : String)
  | ollamaRequestFailed (msg : String)
  | embeddingModelError (msg : String)
  | tesseractError (msg : String)
  | vectorDbError (msg : String)
  | valueError (msg : String)
  | other (msg : String)
deriving Repr, DecidableEq

/-- The kind (Python class) of an exception, forgetting the message. -/
inductive ErrKind where
  | ollamaUnavailable
  | ollamaModelMissing
  | ollamaRequestFailed
  | embeddingModelError
  | tesseractError
  | vectorDbError
  | valueError
  | other
deriving Repr, DecidableEq

def PyError.kind : PyError → ErrKind
  | .ollamaUnavailable _ => .ollamaUnavailable
  | .ollamaModelMissing _ => .ollamaModelMissing
  | .ollamaRequestFailed _ => .ollamaRequestFailed
  | .embeddingModelError _ => .embeddingModelError
  | .tesseractError _ => .tesseractError
  | .vectorDbError _ => .vectorDbError
  | .valueError _ => .valueError
  | .other _ => .other

/-- Whether the exception belongs to the `BackendError` hierarchy declared
in `errors.py` (true) or is a generic builtin exception (false). -/
def PyError.isBackendError : PyError → Bool
  | .valueError _ => false
  | .other _ => false
  | _ => true

/-! ## String helpers mirroring the Python operations used

These are written over `String.data` with structural recursion so that
concrete instances evaluate inside the kernel. -/

instance {ε α : Type _} [DecidableEq ε] [DecidableEq α] :
    DecidableEq (Except ε α) := fun a b =>
  match a, b with
  | .ok x, .ok y =>
    if h : x = y then .isTrue (by rw [h]) else .isFalse (by simp [h])
  | .ok _, .error _ => .isFalse (by simp)
  | .error _, .ok _ => .isFalse (by simp)
  | .error x, .error y =>
    if h : x = y then .isTrue (by rw [h]) else .isFalse (by simp [h])

/-- Python `str.strip()` on a character list: drop whitespace at both
ends. -/
def stripChars (cs : List Char) : List Char :=
  ((cs.dropWhile Char.isWhitespace).reverse.dropWhile Char.isWhitespace).reverse

/-- Python `str.strip()`. -/
def pyStrip (s : String) : String :=
  String.mk (stripChars s.data)

/-- Python `str.lower()` (ASCII, as used on file extensions). -/
def pyLower (s : String) : String :=
  String.mk (s.data.map Char.toLower)

/-- Python `str.upper()` (ASCII, as used on history roles). -/
def pyUpper (s : String) : String :=
  String.mk (s.data.map Char.toUpper)

/-- Split a character list on a separator character; always returns at
least one (possibly empty) group. -/
def splitChar (c : Char) : List Char → List (List Char)
  | [] => [[]]
  | ch :: rest =>
    match splitChar c rest with
    | [] => if ch = c then [[], []] else [[ch]]
    | g :: gs => if ch = c then [] :: g :: gs else (ch :: g) :: gs

/-- `os.path.basename`: the part after the final `/`. -/
def basename (p : String) : String :=
  String.mk ((splitChar '/' p.data).getLastD [])

/-- Python `str.startswith` on character lists. -/
def startsWithChars : List Char → List Char → Bool
  | _, [] => true
  | [], _ :: _ => false
  | a :: as, b :: bs => a = b && startsWithChars as bs

/-- Python `str.startswith`. -/
def pyStartsWith (s pattern : String) : Bool :=
  startsWithChars s.data pattern.data

/-- Index of the last occurrence of `c`, as in Python `str.rfind`. -/
def lastIndexOf (cs : List Char) (c : Char) : Option Nat :=
  cs.enum.foldl (fun acc ic => if ic.2 = c then some ic.1 else acc) none

/-- `pathlib.PurePath.suffix`: the final component's extension from its
last dot, empty when the name has no dot, starts with its only dot, or
ends in a dot. -/
def pathSuffix (p : String) : String :=
  let name := (basename p).data
  match lastIndexOf name '.' with
  | none => ""
  | some i => if 0 < i ∧ i < name.length - 1 then String.mk (name.drop i) else ""

/-- Python `"sep".join(xs)`. -/
def joinWith (sep : String) : List String → String
  | [] => ""
  | x :: xs => match xs with
    | [] => x
    | y :: ys => x ++ sep ++ joinWith sep (y :: ys)

/-- Python `xs[-n:]`. -/
def lastN (n : Nat) (xs : List α) : List α :=
  xs.drop (xs.length - n)

/-- Python `zip` over three sequences. -/
def zip3 : List α → List β → List γ → List (α × β × γ)
  | a :: as, b :: bs, c :: cs => (a, b, c) :: zip3 as bs cs
  | _, _, _ => []

/-! ## Data model (loader / chunker documents and chunks) -/

inductive SupportedFileType where
  | txt
  | md
  | pdf
  | image
deriving Repr, DecidableEq

def SupportedFileType.toStr : SupportedFileType → String
  | .txt => "txt"
  | .md => "md"
  | .pdf => "pdf"
  | .image => "image"

/-- The metadata dict attached to documents and chunks. The loader fills
`source_file` and `file_type`; the chunker adds `chunk_index`. Fields are
optional because downstream code reads them with `dict.get`. -/
structure Metadata where
  source_file : Option String
  file_type : Option String
  chunk_index : Option Nat
deriving Repr, DecidableEq

/-- A normalized document dict: `{"text": ..., "metadata": ...}`. -/
structure Document where
  text : String
  metadata : Metadata
deriving Repr, DecidableEq

/-- A chunk dict produced by `chunk_documents` (and the shape stored in
the vector collection). -/
structure Chunk where
  text : String
  metadata : Metadata
deriving Repr, DecidableEq

/-! ## Loader (backend/app/ingestion/loader.py) -/

/-- `detect_file_type`: classify by lower-cased extension. -/
def detect_file_type (path : String) : Option SupportedFileType :=
  let suffix := pyLower (pathSuffix path)
  if suffix = ".txt" then some .txt
  else if suffix = ".md" then some .md
  else if suffix = ".pdf" then some .pdf
  else if suffix = ".png" ∨ suffix = ".jpg" ∨ suffix = ".jpeg" then some .image
  else none

/-- `load_file`. The raw text extraction (`_read_text_file`,
`_read_pdf_file`, `_read_image_file`) is an external effect on the saved
file's bytes, supplied as the oracle `extract`; it may raise (e.g.
`TesseractError` for OCR timeout / missing OCR). An unrecognized
extension raises the builtin `ValueError`, exactly as in the source. -/
def load_file (extract : SupportedFileType → Except PyError String)
    (path : String) : Except PyError (List Document) :=
  match detect_file_type path with
  | none => .error (.valueError ("Unsupported file type for " ++ path))
  | some ftype =>
    match extract ftype with
    | .error e => .error e
    | .ok raw =>
      let text := pyStrip raw
      if text = "" then .ok []
      else .ok [{ text := text,
                  metadata := { source_file := some path,
                                file_type := some ftype.toStr,
                                chunk_index := none } }]

/-! ## Chunker (backend/app/ingestion/chunker.py)

The `RecursiveCharacterTextSplitter` is an external library; its
`split_text` method is passed in as the function `split`. -/

/-- The chunks contributed by one document: skipped when the text is
whitespace-only, otherwise one chunk per split piece with `chunk_index`
enumerating the pieces from 0. -/
def docChunks (split : String → List String) (doc : Document) : List Chunk :=
  if pyStrip doc.text = "" then []
  else (split doc.text).enum.map fun ic =>
    { text := ic.2, metadata := { doc.metadata with chunk_index := some ic.1 } }

/-- `chunk_documents`: the per-document chunk lists in document order. -/
def chunk_documents (split : String → List String) (documents : List Document) :
    List Chunk :=
  documents.flatMap (docChunks split)

/-! ## Process state for embedder and vector store
(backend/app/embeddings/embedder.py, backend/app/vectorstore/chroma_store.py)

The module-level singletons `_EMBEDDER`, `_CLIENT`, `_COLLECTION` and the
on-disk Chroma directory form the process state. Every invocation of an
external dependency (model load, encode, client init, collection
creation, collection add) is appended to `log`. -/

/-- One invocation of an external dependency. -/
inductive ExtCall where
  | embedModelLoad
  | embedEncode (batch : Nat)
  | clientInit
  | getOrCreateCollection
  | collectionAdd (n : Nat)
deriving Repr, DecidableEq

/-- Persisted contents of the Chroma collection: the stored records
(ids and embedding vectors are omitted; no claim depends on them). -/
structure CollectionData where
  entries : List Chunk
deriving Repr, DecidableEq

/-- Process-wide state: the cached singletons as presence flags, the
on-disk storage location (`none` = the directory does not exist), and the
trace of external-dependency invocations. -/
structure StoreState where
  embedderLoaded : Bool
  client : Bool
  collection : Bool
  disk : Option CollectionData
  log : List ExtCall
deriving Repr, DecidableEq

/-- The state at process start: nothing cached, no storage yet. -/
def initState : StoreState :=
  { embedderLoaded := false, client := false, collection := false,
    disk := none, log := [] }

/-- Outcomes of the external dependencies, fixed per scenario:
whether `SentenceTransformer(...)` loads, what `model.encode` returns
(`none` = it raises), and whether `collection.add` succeeds. -/
structure ExtEnv where
  embedLoadOk : Bool
  encodeResult : List String → Option (List (List Rat))
  addOk : Bool

/-- `config.ensure_directories`: create the storage directory if missing
(`mkdir parents exist_ok`); existing contents are untouched. -/
def ensure_directories (s : StoreState) : StoreState :=
  { s with disk := some (s.disk.getD { entries := [] }) }

/-- `get_embedder`: lazily load the sentence-transformers model; a failed
load raises `EmbeddingModelError("Embedding model missing")`. -/
def get_embedder (env : ExtEnv) (s : StoreState) : Except PyError Unit × StoreState :=
  if s.embedderLoaded then (.ok (), s)
  else
    let s := { s with log := s.log ++ [.embedModelLoad] }
    if env.embedLoadOk then (.ok (), { s with embedderLoaded := true })
    else (.error (.embeddingModelError "Embedding model missing"), s)

/-- `embed_texts`: empty input returns `[]` before touching the model;
otherwise load the model lazily and encode the batch. An encode failure
raises `EmbeddingModelError("Embedding model missing")`. -/
def embed_texts (env : ExtEnv) (texts : List String) (s : StoreState) :
    Except PyError (List (List Rat)) × StoreState :=
  if texts = [] then (.ok [], s)
  else
    match get_embedder env s with
    | (.error e, s) => (.error e, s)
    | (.ok _, s) =>
      let s := { s with log := s.log ++ [.embedEncode texts.length] }
      match env.encodeResult texts with
      | none => (.error (.embeddingModelError "Embedding model missing"), s)
      | some vectors => (.ok vectors, s)

/-- `_get_client`: lazily initialize the persistent Chroma client (which
first ensures the storage directory exists). Client construction is
modelled as succeeding. -/
def get_client (s : StoreState) : StoreState :=
  if s.client then s
  else
    let s := ensure_directories s
    { s with client := true, log := s.log ++ [.clientInit] }

/-- `get_vector_store`: lazily obtain the singleton collection via
`get_or_create_collection` (creating an empty collection when the
location holds none). -/
def get_vector_store (s : StoreState) : StoreState :=
  if s.collection then s
  else
    let s := get_client s
    let s := { s with disk := some (s.disk.getD { entries := [] }) }
    { s with collection := true, log := s.log ++ [.getOrCreateCollection] }

/-- `add_documents`: empty input returns 0 before embedding or touching
the store; otherwise embed the texts, open the collection and add the
records. A failing `collection.add` raises
`VectorDbError("Vector DB error")`. Fresh uuid ids are generated in the
source; they are omitted here. -/
def add_documents (env : ExtEnv) (chunks : List Chunk) (s : StoreState) :
    Except PyError Nat × StoreState :=
  if chunks = [] then (.ok 0, s)
  else
    let texts := chunks.map (·.text)
    match embed_texts env texts s with
    | (.error e, s) => (.error e, s)
    | (.ok _embeddings, s) =>
      let s := get_vector_store s
      let s := { s with log := s.log ++ [.collectionAdd chunks.length] }
      if env.addOk then
        let data := s.disk.getD { entries := [] }
        (.ok chunks.length, { s with disk := some { entries := data.entries ++ chunks } })
      else (.error (.vectorDbError "Vector DB error"), s)

/-- `clear_vector_store`: drop both cached handles, remove the storage
directory when it exists (`shutil.rmtree`), then re-create the empty
location. The filesystem operations are modelled as succeeding. -/
def clear_vector_store (s : StoreState) : StoreState :=
  let s := { s with collection := false, client := false }
  let s := if s.disk.isSome then { s with disk := none } else s
  ensure_directories s

/-- `count_chunks`: `collection.count()` on the lazily opened store. -/
def count_chunks (s : StoreState) : Nat × StoreState :=
  let s := get_vector_store s
  (((s.disk.getD { entries := [] }).entries).length, s)

/-- One aggregated row of `list_indexed_files`. -/
structure FileStat where
  source_file : String
  file_type : Option String
  num_chunks : Nat
deriving Repr, DecidableEq

/-- Increment the count for `key` in the insertion-ordered stats dict, or
append it with count 1 (Python dict semantics). -/
def statsBump (stats : List ((String × Option String) × Nat))
    (key : String × Option String) : List ((String × Option String) × Nat) :=
  if stats.any (fun p => p.1 = key) then
    stats.map (fun p => if p.1 = key then (p.1, p.2 + 1) else p)
  else stats ++ [(key, 1)]

/-- `list_indexed_files`: aggregate stored metadatas by
`(source_file, file_type)`, skipping records with a missing or empty
(falsy) `source_file`. The read is modelled as succeeding (the source
degrades to `[]` on a read failure). -/
def list_indexed_files (s : StoreState) : List FileStat × StoreState :=
  let s := get_vector_store s
  let metadatas := ((s.disk.getD { entries := [] }).entries).map (·.metadata)
  let stats := metadatas.foldl (fun st meta =>
    match meta.source_file with
    | none => st
    | some src => if src = "" then st else statsBump st (src, meta.file_type)) []
  (stats.map (fun p =>
    { source_file := p.1.1, file_type := p.1.2, num_chunks := p.2 }), s)

/-! ## Ingestion endpoint (backend/app/main.py, `ingest`) -/

/-- One entry of the per-file result list (`IngestFileResult` schema). -/
structure IngestFileResult where
  filename : String
  file_type : Option String
  chunks_added : Nat
  error : Option String
deriving Repr, DecidableEq

/-- The `IngestResponse` schema. -/
structure IngestResponse where
  results : List IngestFileResult
  total_chunks : Nat
deriving Repr, DecidableEq

/-- Environment for one ingest request: the external outcomes for the
embedder/store, the splitter, the per-path text extraction oracle for
the saved upload, and the uploads directory (an absolute posix path). -/
structure IngestEnv where
  ext : ExtEnv
  split : String → List String
  extract : String → SupportedFileType → Except PyError String
  uploadsPath : String

/-- `os.path.basename(up.filename or "unknown")` (a `None` upload
filename is modelled as `""`, which is falsy like `None`). -/
def normUploadName (filename : String) : String :=
  basename (if filename = "" then "unknown" else filename)

/-- The error message recorded for a failed file, one case per `except`
clause of the ingest loop: `TesseractError` keeps its message (falling
back to "Tesseract not installed" when it is empty), embedding and
vector-store failures get fixed messages, and any other exception is
recorded as `str(exc)`. -/
def ingestErrorMessage : PyError → String
  | .tesseractError msg => if msg = "" then "Tesseract not installed" else msg
  | .embeddingModelError _ => "Embedding model missing"
  | .vectorDbError _ => "Vector DB error"
  | .ollamaUnavailable msg => msg
  | .ollamaModelMissing msg => msg
  | .ollamaRequestFailed msg => msg
  | .valueError msg => msg
  | .other msg => msg

/-- The result entry recorded when a file's pipeline raised `e`: the file
type is re-derived (best effort) from the bare filename, zero chunks, and
the error message for `e`. -/
def failedFileResult (filename : String) (e : PyError) : IngestFileResult :=
  { filename := filename,
    file_type := (detect_file_type filename).map SupportedFileType.toStr,
    chunks_added := 0,
    error := some (ingestErrorMessage e) }

/-- The body of the ingest loop for one uploaded file: save the bytes
under the basename (saving is modelled as succeeding), load, chunk, and
add; any exception from those steps is caught and recorded against this
file. Returns the result entry, the number of chunks added (the
contribution to `total_chunks`), and the updated process state. -/
def ingest_file (env : IngestEnv) (upFilename : String) (s : StoreState) :
    IngestFileResult × Nat × StoreState :=
  let filename := normUploadName upFilename
  let save_path := env.uploadsPath ++ "/" ++ filename
  match load_file (env.extract save_path) save_path with
  | .error e => (failedFileResult filename e, 0, s)
  | .ok docs =>
    let chunks := chunk_documents env.split docs
    match add_documents env.ext chunks s with
    | (.error e, s) => (failedFileResult filename e, 0, s)
    | (.ok added, s) =>
      let ftype := match docs with
        | [] => none
        | d :: _ => d.metadata.file_type
      ({ filename := filename, file_type := ftype,
         chunks_added := added, error := none }, added, s)

/-- The ingest loop over the uploaded filenames, accumulating the result
list in input order and the running `total_chunks`. -/
def ingestLoop (env : IngestEnv) : List String → StoreState →
    List IngestFileResult × Nat × StoreState
  | [], s => ([], 0, s)
  | f :: fs, s =>
    let r := ingest_file env f s
    let rest := ingestLoop env fs r.2.2
    (r.1 :: rest.1, r.2.1 + rest.2.1, rest.2.2)

/-- The `/ingest` endpoint: an empty upload list is rejected with HTTP
400 ("No files uploaded."); otherwise the loop runs to completion and
the response is returned. -/
def ingest (env : IngestEnv) (files : List String) (s : StoreState) :
    Except String (IngestResponse × StoreState) :=
  if files = [] then .error "No files uploaded."
  else
    let r := ingestLoop env files s
    .ok ({ results := r.1, total_chunks := r.2.1 }, r.2.2)

/-! ## RAG pipeline (backend/app/rag/pipeline.py) -/

/-- One source reference in a query response. -/
structure Source where
  source_file : Option String
  chunk_index : Option Nat
  file_type : Option String
  score : Option Rat
deriving Repr, DecidableEq

/-- Raw Chroma query result: lists of rows, one row per query text. The
fields are optional because the source reads them with `dict.get`. -/
structure QueryResults where
  documents : Option (List (List String))
  metadatas : Option (List (List Metadata))
  distances : Option (List (List (Option Rat)))

/-- Python `x or default` on a list-valued `dict.get`: `None` and the
empty list are both falsy. -/
def pyOrList (x : Option (List α)) (default : List α) : List α :=
  match x with
  | none => default
  | some [] => default
  | some l => l

/-- Python `f"{x}"` for an optional string (prints `None` when absent). -/
def pyStrOptS : Option String → String
  | none => "None"
  | some s => s

/-- Python `f"{x}"` for an optional integer. -/
def pyStrOptN : Option Nat → String
  | none => "None"
  | some n => toString n

/-- `_format_context_and_sources`: flatten the row structure, render one
tagged context line per retrieved chunk, join with blank lines, and build
the parallel source list. -/
def format_context_and_sources (results : QueryResults) :
    String × List Source :=
  let documents := pyOrList results.documents [[]]
  let metadatas := pyOrList results.metadatas [[]]
  let distances := pyOrList results.distances [[]]
  let cells := (zip3 documents metadatas distances).flatMap
    (fun row => zip3 row.1 row.2.1 row.2.2)
  let context_lines := cells.map (fun cell =>
    "[source=" ++ pyStrOptS cell.2.1.source_file ++ " chunk=" ++
      pyStrOptN cell.2.1.chunk_index ++ "] " ++ cell.1)
  let sources := cells.map (fun cell =>
    { source_file := cell.2.1.source_file,
      chunk_index := cell.2.1.chunk_index,
      file_type := cell.2.1.file_type,
      score := cell.2.2 })
  (joinWith "\n\n" context_lines, sources)

/-- A conversation history item (`{"role": ..., "content": ...}`);
fields optional because the prompt builders read them with `dict.get`. -/
structure HistoryItem where
  role : Option String
  content : Option String
deriving Repr, DecidableEq

/-- The result dict of `answer_question`. -/
structure RagResult where
  answer : String
  sources : List Source
deriving Repr, DecidableEq

/-- Environment for one query: the vector store's reply to
`query_similar(question, top_k)` and the configured LLM's
`generate_answer` (both external on this path, modelled as succeeding;
their typed failures propagate unmodified in the source). -/
structure RagEnv where
  retrieve : String → QueryResults
  generate : String → String → Option (List HistoryItem) → String

/-- `answer_question`: retrieve, assemble context, and either
short-circuit on an empty context or call the LLM and trim its answer.
The returned `Bool` instruments the embedding: it records whether the
generation provider was invoked. -/
def answer_question (env : RagEnv) (question : String)
    (history : Option (List HistoryItem)) : RagResult × Bool :=
  let retrieval := env.retrieve question
  let cs := format_context_and_sources retrieval
  if pyStrip cs.1 = "" then
    ({ answer := "The answer is not found in the provided documents.",
       sources := [] }, false)
  else
    ({ answer := pyStrip (env.generate cs.1 question history),
       sources := cs.2 }, true)

/-! ## Generation providers (backend/app/llm/ollama_llm.py, hf_llm.py) -/

namespace OllamaClient

/-- `OllamaClient._build_prompt`, transcribed from ollama_llm.py. -/
def build_prompt (context question : String)
    (history : Option (List HistoryItem)) : String :=
  let history := history.getD []
  let history_text :=
    if history = [] then ""
    else joinWith "\n" ((lastN 10 history).map (fun item =>
      pyUpper (item.role.getD "user") ++ ": " ++ item.content.getD ""))
  let prompt :=
    "You are a helpful assistant for a personal knowledge organizer.\n" ++
    "You must answer **only** based on the provided context.\n" ++
    "If the answer cannot be found in the context, reply explicitly that " ++
    "\"the answer is not found in the provided documents.\".\n\n"
  let prompt :=
    if history_text = "" then prompt
    else prompt ++ "Conversation history:\n" ++ history_text ++ "\n\n"
  prompt ++ "Context:\n" ++ context ++ "\n\nQuestion:\n" ++ question ++
    "\n\nAnswer:"

end OllamaClient

namespace HuggingFaceClient

/-- `HuggingFaceClient._build_prompt`, transcribed from hf_llm.py. -/
def build_prompt (context question : String)
    (history : Option (List HistoryItem)) : String :=
  let history := history.getD []
  let history_text :=
    if history = [] then ""
    else joinWith "\n" ((lastN 10 history).map (fun item =>
      pyUpper (item.role.getD "user") ++ ": " ++ item.content.getD ""))
  let prompt :=
    "You are a helpful assistant for a personal knowledge organizer.\n" ++
    "You must answer **only** based on the provided context.\n" ++
    "If the answer cannot be found in the context, reply explicitly that " ++
    "\"the answer is not found in the provided documents.\".\n\n"
  let prompt :=
    if history_text = "" then prompt
    else prompt ++ "Conversation history:\n" ++ history_text ++ "\n\n"
  prompt ++ "Context:\n" ++ context ++ "\n\nQuestion:\n" ++ question ++
    "\n\nAnswer:"

end HuggingFaceClient

/-- Modelled from the spec: the shared prompt contract — an instruction
block directing the model to answer only from the supplied context,
optionally carrying at most the last 10 history items rendered as
uppercased `ROLE: content` lines, then the context block, the question,
and the final "Answer:" cue. Used only for comparison with the two
source-side builders. -/
def promptContract (context question : String)
    (history : Option (List HistoryItem)) : String :=
  let items := lastN 10 (history.getD [])
  let rendered := joinWith "\n" (items.map (fun item =>
    pyUpper (item.role.getD "user") ++ ": " ++ item.content.getD ""))
  let base :=
    "You are a helpful assistant for a personal knowledge organizer.\n" ++
    "You must answer **only** based on the provided context.\n" ++
    "If the answer cannot be found in the context, reply explicitly that " ++
    "\"the answer is not found in the provided documents.\".\n\n"
  let base :=
    if items = [] then base
    else base ++ "Conversation history:\n" ++ rendered ++ "\n\n"
  base ++ "Context:\n" ++ context ++ "\n\nQuestion:\n" ++ question ++
    "\n\nAnswer:"

/-- Outcome of `requests.post` on the Ollama generation endpoint: a
timeout, any other transport-level exception, or an HTTP response with a
status, a raw body, and its JSON fields when the body parses
(an association list standing for the parsed dict). -/
inductive PostOutcome where
  | timeout
  | transportError (msg : String)
  | response (status : Nat) (body : String) (json : Option (List (String × String)))
deriving Repr, DecidableEq

/-- Environment for one `OllamaClient.generate_answer` call: the reply of
`check_ollama_model_present` and the outcome of the HTTP request. -/
structure OllamaEnv where
  checkModel : Bool × Option String
  post : PostOutcome
deriving Repr, DecidableEq

/-- Python `a or b` over optional strings (`None` and `""` falsy). -/
def pyOrStr (a : Option String) (b : String) : String :=
  match a with
  | none => b
  | some "" => b
  | some s => s

/-- `OllamaClient.generate_answer`, transcribed from ollama_llm.py:
validate service and model, post the prompt, and dispatch on the
outcome. A timeout raises `OllamaRequestFailed`; any other
transport-level exception raises `OllamaUnavailable`; a non-200 status
raises `OllamaRequestFailed`; a non-JSON success body is returned
verbatim; otherwise `response`/`text` fields are tried in order. -/
def generate_answer (env : OllamaEnv) (context question : String)
    (history : Option (List HistoryItem)) : Except PyError String :=
  let ok := env.checkModel.1
  let msg := env.checkModel.2
  if ok = false then
    if msg = some "Ollama not running" then
      .error (.ollamaUnavailable "Ollama not running")
    else if (msg.getD "") ≠ "" ∧
        pyStartsWith (msg.getD "") "LLM model not found in Ollama" = true then
      .error (.ollamaModelMissing (msg.getD ""))
    else
      .error (.ollamaRequestFailed (pyOrStr msg "Failed to validate Ollama model"))
  else
    let _prompt := OllamaClient.build_prompt context question history
    match env.post with
    | .timeout => .error (.ollamaRequestFailed "Ollama request timed out")
    | .transportError m =>
      .error (.ollamaUnavailable ("Ollama request failed: " ++ m))
    | .response status body json =>
      if status ≠ 200 then
        .error (.ollamaRequestFailed
          ("Ollama error " ++ toString status ++ ": " ++ body))
      else
        match json with
        | none => .ok body
        | some fields =>
          .ok (pyOrStr (fields.lookup "response") (pyOrStr (fields.lookup "text") ""))

/-! ## Shared helper lemmas -/

theorem string_append_eq_empty {a b : String} (h : a ++ b = "") :
    a = "" ∧ b = "" := by
  obtain ⟨la⟩ := a
  obtain ⟨lb⟩ := b
  have h2 : la ++ lb = [] := congrArg String.data h
  rcases List.append_eq_nil.mp h2 with ⟨h3, h4⟩
  subst h3; subst h4
  exact ⟨rfl, rfl⟩

/-- A rendered `ROLE: content` history line is never the empty string. -/
theorem historyLine_ne_empty (r c : String) :
    pyUpper r ++ ": " ++ c ≠ "" := by
  intro h
  have h2 := (string_append_eq_empty (string_append_eq_empty h).1).2
  exact absurd h2 (by decide)

theorem joinWith_cons_ne_empty (sep x : String) (xs : List String)
    (hx : x ≠ "") : joinWith sep (x :: xs) ≠ "" := by
  cases xs with
  | nil => simpa [joinWith] using hx
  | cons y ys =>
    intro h
    rw [joinWith] at h
    exact hx (string_append_eq_empty (string_append_eq_empty h).1).1

/-- A document's chunks carry its own metadata, only `chunk_index` is
overwritten. -/
theorem docChunks_source_file (split : String → List String) (d : Document) :
    ∀ c ∈ docChunks split d, c.metadata.source_file = d.metadata.source_file := by
  intro c hc
  unfold docChunks at hc
  split at hc
  · simp at hc
  · obtain ⟨ic, _, rfl⟩ := List.mem_map.mp hc
    rfl

/-- A whitespace-only document contributes no chunks. -/
theorem docChunks_blank (split : String → List String) (d : Document)
    (h : pyStrip d.text = "") : docChunks split d = [] := by
  unfold docChunks
  simp [h]

/-- Within one document, `chunk_index` enumerates the chunks from 0. -/
theorem docChunks_chunk_index (split : String → List String) (d : Document) :
    ∀ i (hi : i < (docChunks split d).length),
      ((docChunks split d).get ⟨i, hi⟩).metadata.chunk_index = some i := by
  intro i hi
  by_cases hb : pyStrip d.text = ""
  · exact absurd hi (by simp [docChunks_blank split d hb])
  · have he : docChunks split d =
        (split d.text).enum.map (fun ic =>
          { text := ic.2, metadata := { d.metadata with chunk_index := some ic.1 } }) := by
      unfold docChunks
      rw [if_neg hb]
    rw [List.get_of_eq he]
    simp

/-! ## Claim theorems -/

/-- C6: `embed_texts` on the empty list returns the empty list and
`add_documents` on the empty list returns 0; in both cases the call
succeeds (no exception) and the process state — in particular the log of
external-dependency invocations and the lazy-singleton flags — is left
untouched: no embedding-model load or encode, and no vector-store access,
happens. -/
theorem embed_and_add_on_empty_input (env : ExtEnv) (s : StoreState) :
    embed_texts env [] s = (.ok [], s) ∧ add_documents env [] s = (.ok 0, s) := by
  constructor <;> rfl

/-- C7: for any prior store state, after `clear_vector_store` the count
is 0 and the indexed-file list is empty (this includes states in which
the storage location does not yet exist, `disk = none`); both cached
handles are invalidated, and the next operation re-opens the store: the
first `count_chunks` after a clear appends the client-initialization and
collection-creation events to the log. -/
theorem clear_vector_store_resets (s : StoreState) :
    (count_chunks (clear_vector_store s)).1 = 0 ∧
    (list_indexed_files (clear_vector_store s)).1 = [] ∧
    (clear_vector_store s).client = false ∧
    (clear_vector_store s).collection = false ∧
    (count_chunks (clear_vector_store s)).2.log =
      (clear_vector_store s).log ++ [.clientInit, .getOrCreateCollection] := by
  have hclear : clear_vector_store s =
      { s with collection := false, client := false,
               disk := some { entries := [] } } := by
    unfold clear_vector_store ensure_directories
    cases s.disk <;> simp
  rw [hclear]
  refine ⟨?_, ?_, rfl, rfl, ?_⟩ <;>
    simp [count_chunks, list_indexed_files, get_vector_store, get_client,
      ensure_directories]

/-- C2: whenever the context assembled from the retrieval result strips
to the empty string (in particular when nothing is stored or nothing
matched), `answer_question` returns exactly the fixed not-found answer
with an empty source list, and the generation provider is not invoked
(the instrumentation flag is `false`). -/
theorem answer_question_empty_context (env : RagEnv) (question : String)
    (history : Option (List HistoryItem))
    (h : pyStrip (format_context_and_sources (env.retrieve question)).1 = "") :
    answer_question env question history =
      ({ answer := "The answer is not found in the provided documents.",
         sources := [] }, false) := by
  simp [answer_question, h]

theorem answer_question_empty_context_witness :
    pyStrip (format_context_and_sources
      ((fun _ => { documents := some [], metadatas := some [],
                   distances := some [] } : String → QueryResults) "q")).1 = "" ∧
    answer_question
      { retrieve := fun _ => { documents := some [], metadatas := some [],
                               distances := some [] },
        generate := fun _ _ _ => "backend reply" } "q" none =
      ({ answer := "The answer is not found in the provided documents.",
         sources := [] }, false) :=
  ⟨by decide,
   answer_question_empty_context
     { retrieve := fun _ => { documents := some [], metadatas := some [],
                              distances := some [] },
       generate := fun _ _ _ => "backend reply" } "q" none (by decide)⟩


/-- C3 counterexample: with the remote service reachable and the model
present, a transport-level failure of the generation request raises
`OllamaUnavailable`, not `OllamaRequestFailed`; a timeout raises
`OllamaRequestFailed`. The two error kinds differ, refuting the claim
that both paths raise the same `RequestFailed` kind. -/
theorem timeout_vs_transport_kinds_differ :
    generate_answer
        { checkModel := (true, some "llama3.1:8b"),
          post := .transportError "connection refused" } "ctx" "q" none =
      .error (.ollamaUnavailable "Ollama request failed: connection refused") ∧
    generate_answer
        { checkModel := (true, some "llama3.1:8b"), post := .timeout }
        "ctx" "q" none =
      .error (.ollamaRequestFailed "Ollama request timed out") ∧
    PyError.kind (.ollamaUnavailable "Ollama request failed: connection refused") ≠
      PyError.kind (.ollamaRequestFailed "Ollama request timed out") :=
  ⟨by decide, by decide, by decide⟩

/-- C3 amended: once the pre-request validation has passed, a timeout of
the generation request raises `OllamaRequestFailed` with message "Ollama
request timed out", while a transport-level failure raises the distinct
kind `OllamaUnavailable` with message "Ollama request failed: " followed
by the transport exception's text. -/
theorem timeout_and_transport_dispatch (chk : Bool × Option String)
    (context question : String) (history : Option (List HistoryItem))
    (m : String) (hok : chk.1 = true) :
    generate_answer { checkModel := chk, post := .timeout }
        context question history =
      .error (.ollamaRequestFailed "Ollama request timed out") ∧
    generate_answer { checkModel := chk, post := .transportError m }
        context question history =
      .error (.ollamaUnavailable ("Ollama request failed: " ++ m)) := by
  constructor <;> simp [generate_answer, hok]

theorem timeout_and_transport_dispatch_witness :
    ((true, some "llama3.1:8b") : Bool × Option String).1 = true ∧
    (generate_answer
        { checkModel := (true, some "llama3.1:8b"), post := .timeout }
        "ctx" "q" none =
      .error (.ollamaRequestFailed "Ollama request timed out") ∧
    generate_answer
        { checkModel := (true, some "llama3.1:8b"),
          post := .transportError "connection refused" } "ctx" "q" none =
      .error (.ollamaUnavailable ("Ollama request failed: " ++ "connection refused"))) :=
  ⟨by decide,
   timeout_and_transport_dispatch (true, some "llama3.1:8b") "ctx" "q" none
     "connection refused" (by decide)⟩

/-- C9 counterexample: for a path with an unrecognized extension,
`load_file` raises the builtin `ValueError` — an exception outside the
typed `BackendError` hierarchy (no `UnsupportedFileType` class exists in
`errors.py`) — refuting the claim that a typed "unsupported file type"
failure kind is raised. -/
theorem unsupported_extension_raises_valueerror :
    load_file (fun _ => .ok "some text") "/data/uploads/doc.docx" =
      .error (.valueError "Unsupported file type for /data/uploads/doc.docx") ∧
    (PyError.valueError
      "Unsupported file type for /data/uploads/doc.docx").isBackendError = false :=
  ⟨by decide, by decide⟩

/-- C9 amended: for every file path whose extension is not one of the
recognized types, `load_file` raises the generic builtin `ValueError`
with message "Unsupported file type for " followed by the path (there is
no typed `UnsupportedFileType` error kind in the codebase). -/
theorem load_file_unsupported_extension
    (extract : SupportedFileType → Except PyError String) (path : String)
    (hdet : detect_file_type path = none) :
    load_file extract path =
      .error (.valueError ("Unsupported file type for " ++ path)) := by
  simp [load_file, hdet]

theorem load_file_unsupported_extension_witness :
    detect_file_type "/data/uploads/archive.zip" = none ∧
    load_file (fun _ => .ok "zzz") "/data/uploads/archive.zip" =
      .error (.valueError ("Unsupported file type for " ++ "/data/uploads/archive.zip")) :=
  ⟨by decide,
   load_file_unsupported_extension (fun _ => .ok "zzz")
     "/data/uploads/archive.zip" (by decide)⟩

/-- C10: for an uploaded file with a recognized extension whose
extraction succeeds but yields only whitespace (so the loader returns
zero documents) and whose pipeline raises nothing, the recorded result
has `file_type = none` — the type is not re-derived from the filename on
this success path — with zero chunks added and a null error, and the
store state is untouched. -/
theorem ingest_file_empty_extraction (env : IngestEnv) (f : String)
    (s : StoreState) (ft : SupportedFileType) (raw : String)
    (hdet : detect_file_type (env.uploadsPath ++ "/" ++ normUploadName f) = some ft)
    (hext : env.extract (env.uploadsPath ++ "/" ++ normUploadName f) ft = .ok raw)
    (hstrip : pyStrip raw = "") :
    ingest_file env f s =
      ({ filename := normUploadName f, file_type := none,
         chunks_added := 0, error := none }, 0, s) := by
  simp [ingest_file, load_file, hdet, hext, hstrip, chunk_documents,
    add_documents]

theorem ingest_file_empty_extraction_witness :
    detect_file_type
        (({ ext := { embedLoadOk := true, encodeResult := fun _ => none,
                     addOk := true },
            split := fun t => [t], extract := fun _ _ => .ok "  ",
            uploadsPath := "/data/uploads" } : IngestEnv).uploadsPath ++ "/" ++
          normUploadName "scan.png") = some .image ∧
    pyStrip "  " = "" ∧
    ingest_file
        { ext := { embedLoadOk := true, encodeResult := fun _ => none,
                   addOk := true },
          split := fun t => [t], extract := fun _ _ => .ok "  ",
          uploadsPath := "/data/uploads" } "scan.png" initState =
      ({ filename := normUploadName "scan.png", file_type := none,
         chunks_added := 0, error := none }, 0, initState) :=
  ⟨by decide, by decide,
   ingest_file_empty_extraction
     { ext := { embedLoadOk := true, encodeResult := fun _ => none,
                addOk := true },
       split := fun t => [t], extract := fun _ _ => .ok "  ",
       uploadsPath := "/data/uploads" } "scan.png" initState .image "  "
     (by decide) (by decide) (by decide)⟩


/-- C4: the remote (Ollama) and in-process (HuggingFace) backends build
character-for-character identical prompts for every context, question and
history; and that prompt follows the shared contract: the instruction
block, optionally carrying at most the last 10 history items rendered as
uppercased `ROLE: content` lines, then the context block, the question
and the final "Answer:" cue. -/
theorem prompts_identical (context question : String)
    (history : Option (List HistoryItem)) :
    OllamaClient.build_prompt context question history =
      HuggingFaceClient.build_prompt context question history ∧
    OllamaClient.build_prompt context question history =
      promptContract context question history := by
  refine ⟨rfl, ?_⟩
  by_cases hh : history.getD [] = []
  · simp [OllamaClient.build_prompt, promptContract, hh, lastN]
  · obtain ⟨a, as, hlast⟩ : ∃ a as,
        lastN 10 (history.getD []) = a :: as := by
      cases hL : lastN 10 (history.getD []) with
      | cons a as => exact ⟨a, as, rfl⟩
      | nil =>
        exfalso
        apply hh
        have hlen := List.drop_eq_nil_iff.mp hL
        cases hcase : history.getD [] with
        | nil => rfl
        | cons r rs =>
          rw [hcase] at hlen
          simp [List.length_cons] at hlen
          omega
    have hJ : joinWith "\n" ((lastN 10 (history.getD [])).map (fun item =>
        pyUpper (item.role.getD "user") ++ ": " ++ item.content.getD "")) ≠ "" := by
      rw [hlast, List.map_cons]
      exact joinWith_cons_ne_empty _ _ _ (historyLine_ne_empty _ _)
    have hItems : lastN 10 (history.getD []) ≠ [] := by
      rw [hlast]; exact List.cons_ne_nil a as
    simp only [OllamaClient.build_prompt, promptContract, if_neg hh,
      if_neg hJ, if_neg hItems]

/-- C5: for every document list produced by the normalizer (`load_file`
on a resolved, hence non-empty, path), every chunk produced by the
chunker inherits its document's non-empty `source_file`; the chunk list
is the per-document chunk lists in document order, with `chunk_index`
running 0, 1, 2, ... within each document; and a document whose text is
only whitespace produces zero chunks. -/
theorem chunker_invariants (split : String → List String)
    (extract : SupportedFileType → Except PyError String) (path : String)
    (docs : List Document)
    (hload : load_file extract path = .ok docs) (hpath : path ≠ "") :
    (∀ c ∈ chunk_documents split docs,
      c.metadata.source_file = some path ∧ path ≠ "") ∧
    (∀ d ∈ docs, ∀ c ∈ docChunks split d,
      c.metadata.source_file = d.metadata.source_file) ∧
    chunk_documents split docs = docs.flatMap (docChunks split) ∧
    (∀ d ∈ docs, ∀ i (hi : i < (docChunks split d).length),
      ((docChunks split d).get ⟨i, hi⟩).metadata.chunk_index = some i) ∧
    (∀ d ∈ docs, pyStrip d.text = "" → docChunks split d = []) := by
  have hdocs : docs = [] ∨ ∃ (t : String) (ftStr : String), docs =
      [{ text := t,
         metadata := { source_file := some path,
                       file_type := some ftStr,
                       chunk_index := none } }] := by
    cases hdet : detect_file_type path with
    | none => simp [load_file, hdet] at hload
    | some ftype =>
      cases hext : extract ftype with
      | error e => simp [load_file, hdet, hext] at hload
      | ok raw =>
        by_cases hstrip : pyStrip raw = ""
        · left
          simp [load_file, hdet, hext, hstrip] at hload
          exact hload
        · right
          refine ⟨pyStrip raw, ftype.toStr, ?_⟩
          simp [load_file, hdet, hext, hstrip] at hload
          exact hload.symm
  refine ⟨?_, fun d _ => docChunks_source_file split d, rfl,
    fun d _ => docChunks_chunk_index split d,
    fun d _ => docChunks_blank split d⟩
  intro c hc
  rcases hdocs with h | ⟨t, ftStr, h⟩
  · subst h
    simp [chunk_documents] at hc
  · subst h
    have hmem : c ∈ docChunks split
        { text := t,
          metadata := { source_file := some path,
                        file_type := some ftStr,
                        chunk_index := none } } := by
      simpa [chunk_documents] using hc
    have hs := docChunks_source_file split _ c hmem
    exact ⟨hs, hpath⟩

theorem chunker_invariants_witness :
    load_file (fun _ => .ok "hello world") "/up/a.txt" =
      .ok [{ text := "hello world",
             metadata := { source_file := some "/up/a.txt",
                           file_type := some "txt", chunk_index := none } }] ∧
    "/up/a.txt" ≠ "" ∧
    ((∀ c ∈ chunk_documents (fun t => [t])
        [{ text := "hello world",
           metadata := { source_file := some "/up/a.txt",
                         file_type := some "txt", chunk_index := none } }],
      c.metadata.source_file = some "/up/a.txt" ∧ "/up/a.txt" ≠ "") ∧
    (∀ d ∈ [{ text := "hello world",
              metadata := { source_file := some "/up/a.txt",
                            file_type := some "txt", chunk_index := none } }],
      ∀ c ∈ docChunks (fun t => [t]) d,
        c.metadata.source_file = d.metadata.source_file) ∧
    chunk_documents (fun t => [t])
        [{ text := "hello world",
           metadata := { source_file := some "/up/a.txt",
                         file_type := some "txt", chunk_index := none } }] =
      ([{ text := "hello world",
          metadata := { source_file := some "/up/a.txt",
                        file_type := some "txt", chunk_index := none } }] :
        List Document).flatMap (docChunks (fun t => [t])) ∧
    (∀ d ∈ [{ text := "hello world",
              metadata := { source_file := some "/up/a.txt",
                            file_type := some "txt", chunk_index := none } }],
      ∀ i (hi : i < (docChunks (fun t => [t]) d).length),
        ((docChunks (fun t => [t]) d).get ⟨i, hi⟩).metadata.chunk_index = some i) ∧
    (∀ d ∈ [{ text := "hello world",
              metadata := { source_file := some "/up/a.txt",
                            file_type := some "txt", chunk_index := none } }],
      pyStrip d.text = "" → docChunks (fun t => [t]) d = [])) :=
  ⟨by decide, by decide,
   chunker_invariants (fun t => [t]) (fun _ => .ok "hello world") "/up/a.txt"
     [{ text := "hello world",
        metadata := { source_file := some "/up/a.txt",
                      file_type := some "txt", chunk_index := none } }]
     (by decide) (by decide)⟩


/-- Summing `chunks_added` over the successful entries equals summing it
over all entries, because failed entries carry zero. -/
theorem sum_filter_successful (rs : List IngestFileResult)
    (h : ∀ r ∈ rs, r.error ≠ none → r.chunks_added = 0) :
    ((rs.filter (fun r => r.error.isNone)).map (fun r => r.chunks_added)).sum =
      (rs.map (fun r => r.chunks_added)).sum := by
  induction rs with
  | nil => rfl
  | cons r rs ih =>
    have hrest := ih (fun x hx hxe => h x (List.mem_cons_of_mem r hx) hxe)
    cases he : r.error with
    | none => simp [List.filter_cons, he, hrest]
    | some msg =>
      have hz : r.chunks_added = 0 :=
        h r (List.mem_cons_self r rs) (by simp [he])
      simp [List.filter_cons, he, hrest, hz]


/-! ## Ingest loop lemmas (for the batch-isolation claim) -/

/-- Every per-file result is recorded under the normalized basename of
its upload. -/
theorem ingest_file_filename (env : IngestEnv) (f : String) (s : StoreState) :
    (ingest_file env f s).1.filename = normUploadName f := by
  simp only [ingest_file]
  split
  · rfl
  · split
    · rfl
    · rfl

/-- The contribution of a file to the running total equals the
`chunks_added` recorded in its result entry. -/
theorem ingest_file_chunks (env : IngestEnv) (f : String) (s : StoreState) :
    (ingest_file env f s).1.chunks_added = (ingest_file env f s).2.1 := by
  simp only [ingest_file]
  split
  · rfl
  · split
    · rfl
    · rfl

/-- Each per-file record is either a success with a null error, or a
failure with a non-null error message and zero chunks added. -/
theorem ingest_file_outcome (env : IngestEnv) (f : String) (s : StoreState) :
    (ingest_file env f s).1.error = none ∨
    ((ingest_file env f s).1.error ≠ none ∧
      (ingest_file env f s).1.chunks_added = 0) := by
  simp only [ingest_file]
  split
  · right
    exact ⟨by simp [failedFileResult], rfl⟩
  · split
    · right
      exact ⟨by simp [failedFileResult], rfl⟩
    · left
      rfl

/-- Structure of the ingest loop: one result per file in input order,
each produced by running that file's own pipeline against the state left
by its predecessors, with the total accumulating the per-file
contributions. -/
theorem ingestLoop_spec (env : IngestEnv) :
    ∀ (files : List String) (s : StoreState),
      (ingestLoop env files s).1.length = files.length ∧
      (ingestLoop env files s).1.map (fun r => r.filename) =
        files.map normUploadName ∧
      (ingestLoop env files s).2.1 =
        ((ingestLoop env files s).1.map (fun r => r.chunks_added)).sum ∧
      (∀ r ∈ (ingestLoop env files s).1,
        r.error ≠ none → r.chunks_added = 0) ∧
      (∀ i f, files.get? i = some f →
        (ingestLoop env files s).1.get? i =
          some (ingest_file env f (ingestLoop env (files.take i) s).2.2).1) := by
  intro files
  induction files with
  | nil =>
    intro s
    refine ⟨rfl, rfl, rfl, ?_, ?_⟩
    · intro r hr
      simp [ingestLoop] at hr
    · intro i f hf
      simp at hf
  | cons f fs ih =>
    intro s
    obtain ⟨ih1, ih2, ih3, ih4, ih5⟩ := ih (ingest_file env f s).2.2
    refine ⟨?_, ?_, ?_, ?_, ?_⟩
    · simp [ingestLoop, ih1]
    · simp [ingestLoop, ih2, ingest_file_filename]
    · simp [ingestLoop, ih3, ingest_file_chunks]
    · intro r hr
      simp [ingestLoop] at hr
      rcases hr with hr | hr
      · subst hr
        intro herr
        rcases ingest_file_outcome env f s with h | h
        · exact absurd h herr
        · exact h.2
      · exact ih4 r hr
    · intro i g hg
      cases i with
      | zero =>
        simp at hg
        subst hg
        simp [ingestLoop]
      | succ j =>
        rw [List.get?_cons_succ] at hg
        exact ih5 j g hg

/-- C1: for every non-empty batch, `/ingest` returns one result per file
in input order (never aborting early); each entry is either a success
with a null error or a caught failure recorded against that file alone
with a non-null error and zero chunks; entry `i` is exactly the outcome
of running file `i`'s own pipeline on the state its predecessors left;
and `total_chunks` is the sum of `chunks_added` over all entries, which
equals the sum over the successful entries alone. -/
theorem ingest_batch_isolation (env : IngestEnv) (files : List String)
    (s : StoreState) (hne : files ≠ []) :
    ∃ resp s2, ingest env files s = .ok (resp, s2) ∧
      resp.results.length = files.length ∧
      resp.results.map (fun r => r.filename) = files.map normUploadName ∧
      (∀ r ∈ resp.results, r.error = none ∨
        (r.error ≠ none ∧ r.chunks_added = 0)) ∧
      (∀ i f, files.get? i = some f →
        resp.results.get? i =
          some (ingest_file env f (ingestLoop env (files.take i) s).2.2).1) ∧
      resp.total_chunks = (resp.results.map (fun r => r.chunks_added)).sum ∧
      resp.total_chunks =
        ((resp.results.filter (fun r => r.error.isNone)).map
          (fun r => r.chunks_added)).sum := by
  obtain ⟨h1, h2, h3, h4, h5⟩ := ingestLoop_spec env files s
  refine ⟨{ results := (ingestLoop env files s).1,
            total_chunks := (ingestLoop env files s).2.1 },
          (ingestLoop env files s).2.2, ?_, h1, h2, ?_, h5, h3, ?_⟩
  · simp [ingest, hne]
  · intro r hr
    by_cases he : r.error = none
    · exact Or.inl he
    · exact Or.inr ⟨he, h4 r hr he⟩
  · rw [h3]
    exact (sum_filter_successful (ingestLoop env files s).1 h4).symm


theorem ingest_batch_isolation_witness :
    (["a.txt", "doc.docx"] : List String) ≠ [] ∧
    (∃ resp s2, ingest
      { ext := { embedLoadOk := true, encodeResult := fun ts => some (ts.map (fun _ => [0])), addOk := true }, split := fun t => [t], extract := fun _ _ => .ok "hello", uploadsPath := "/up" }
      ["a.txt", "doc.docx"] initState = .ok (resp, s2) ∧
      resp.results.length = (["a.txt", "doc.docx"] : List String).length ∧
      resp.results.map (fun r => r.filename) =
        (["a.txt", "doc.docx"] : List String).map normUploadName ∧
      (∀ r ∈ resp.results, r.error = none ∨
        (r.error ≠ none ∧ r.chunks_added = 0)) ∧
      (∀ i f, (["a.txt", "doc.docx"] : List String).get? i = some f →
        resp.results.get? i =
          some (ingest_file
            { ext := { embedLoadOk := true, encodeResult := fun ts => some (ts.map (fun _ => [0])), addOk := true }, split := fun t => [t], extract := fun _ _ => .ok "hello", uploadsPath := "/up" }
            f (ingestLoop
              { ext := { embedLoadOk := true, encodeResult := fun ts => some (ts.map (fun _ => [0])), addOk := true }, split := fun t => [t], extract := fun _ _ => .ok "hello", uploadsPath := "/up" }
              ((["a.txt", "doc.docx"] : List String).take i) initState).2.2).1) ∧
      resp.total_chunks = (resp.results.map (fun r => r.chunks_added)).sum ∧
      resp.total_chunks =
        ((resp.results.filter (fun r => r.error.isNone)).map
          (fun r => r.chunks_added)).sum) :=
  ⟨by decide,
   ingest_batch_isolation
     { ext := { embedLoadOk := true, encodeResult := fun ts => some (ts.map (fun _ => [0])), addOk := true }, split := fun t => [t], extract := fun _ _ => .ok "hello", uploadsPath := "/up" }
     ["a.txt", "doc.docx"] initState (by decide)⟩


end PKO
